import Mathlib

/-!
Shallow embedding of `src/plots/mapbox/index.js` (plotly.js mapbox subplot
binding): access-token resolution (`findAccessToken`), subplot lifecycle
(`plot`, `clean`), static export (`toSVG`) and interaction refresh
(`updateFx`), together with proofs of the specified properties.

JS conventions modelled explicitly:
  * a subplot's `accesstoken` is a string; the empty string is falsy, so
    `if (token)` becomes `token ≠ ""`;
  * `gd._context.mapboxAccessToken` may be unset (`none`) or a string;
    the source compares it with `=== ''`, i.e. `= some ""` here;
  * a layout `style` may be a string or a style object
    (`typeof style === 'string'` distinguishes them), modelled by `MapStyle`;
  * reading `layout[id]` for an id listed in `_subplots.mapbox` is assumed
    to succeed (the layout defaulting system, outside this module,
    guarantees an entry per active subplot id); key presence of `layout[id]`
    as tested by `!newFullLayout[key]` in `clean` is modelled by the
    `hasEntry` field;
  * thrown exceptions are modelled by error values; side effects performed
    before a throw (logged error messages) are part of the returned outcome.
-/

namespace PlotlyMapbox

/-- The `./constants` module (not under `src/`): required engine version,
the list of Mapbox-hosted style names and the message constants. The claims
are parametric in these values, so they are carried as an explicit record. -/
structure Constants where
  requiredVersion : String
  styleValuesMapbox : List String
  wrongVersionErrorMsg : String
  noAccessTokenErrorMsg : String
  multipleTokensErrorMsg : String
  deriving DecidableEq, Repr

/-- A map `style` value: either a string or a non-string style object
(`typeof style === 'string'` fails on the latter). -/
inductive MapStyle where
  | str (s : String)
  | obj
  deriving DecidableEq, Repr

/-- A map center record `{lon, lat}` (a small mutable record in JS;
`Lib.extendFlat({}, center)` takes a shallow copy of it). -/
structure Center where
  lon : ℚ
  lat : ℚ
  deriving DecidableEq, Repr

/-- The `viewInitial` record captured once per wrapper:
center (a copy), zoom, bearing, pitch. -/
structure ViewInitial where
  center : Center
  zoom : ℚ
  bearing : ℚ
  pitch : ℚ
  deriving DecidableEq, Repr

/-- A subplot wrapper (`new Mapbox(gd, id)`). `uid` is the object identity
(fresh per construction, drawn from the graph's `nextUid` counter) and
`viewInitial` the once-captured initial view state (`none` until set). -/
structure MapboxWrapper where
  uid : Nat
  viewInitial : Option ViewInitial
  deriving DecidableEq, Repr

/-- The normalized domain rectangle of a subplot:
`domain.x = [x0, x1]`, `domain.y = [y0, y1]`. -/
structure Domain where
  x0 : ℚ
  x1 : ℚ
  y0 : ℚ
  y1 : ℚ
  deriving DecidableEq, Repr

/-- Per-subplot layout options `fullLayout[id]`: style, access token
(`""` = unset/falsy), view parameters, domain and the `_subplot` wrapper
slot (`none` = unset/falsy). -/
structure MapboxOpts where
  style : MapStyle
  accesstoken : String
  center : Center
  zoom : ℚ
  bearing : ℚ
  pitch : ℚ
  domain : Domain
  subplotWrapper : Option MapboxWrapper
  deriving DecidableEq, Repr

/-- The plot area size record `fullLayout._size` (left margin, top margin,
plot width, plot height). -/
structure PlotSize where
  l : ℚ
  t : ℚ
  w : ℚ
  h : ℚ
  deriving DecidableEq, Repr

/-- The full layout, restricted to what this module touches:
`_subplots.mapbox` (the current mapbox subplot id list), the per-id entries
`fullLayout[id]` and `_size`. `hasEntry id` models whether the key `id` is
present (truthy) on the layout object; `opts id` is the entry's value,
meaningful where the source assumes the key present. -/
structure FullLayout where
  subplots : List String
  hasEntry : String → Bool
  opts : String → MapboxOpts

/-- Pointwise update of one layout entry (`fullLayout[id] = o`). -/
def FullLayout.setOpts (fl : FullLayout) (id : String) (o : MapboxOpts) :
    FullLayout :=
  { fl with opts := fun j => if j = id then o else fl.opts j }

/-- The execution context `gd._context` (only the token override field). -/
structure Context where
  mapboxAccessToken : Option String
  deriving DecidableEq, Repr

/-- The graph div: full layout, context, the `gd._promises` collection
(modelled by its length) and a counter supplying fresh wrapper identities
(models `new Mapbox` allocating a new object). -/
structure GraphDiv where
  fullLayout : FullLayout
  context : Context
  promises : Nat
  nextUid : Nat

/-- The process-wide `mapboxgl` module state: engine version and the global
access token (`none` = never assigned). -/
structure MapboxGL where
  version : String
  accessToken : Option String
  deriving DecidableEq, Repr

/-- A logging event (`Lib.error` / `Lib.warn` / `Lib.log`). -/
inductive LogEvent where
  | error (msg : String)
  | warn (msg : String)
  | info (msg : String)
  deriving DecidableEq, Repr

/-- `Lib.pushUnique(array, item)` at the call sites of this module:
append `item` unless already present (deduplicated, insertion-order;
both call sites guard `if (token)` so `item` is a non-empty string). -/
def pushUnique (arr : List String) (item : String) : List String :=
  if item ∈ arr then arr else arr ++ [item]

/-- Accumulator of the subplot scan inside `findAccessToken`:
`tokensUseful`, `tokensListed`, the `wontWork` flag and the log events
emitted so far. -/
structure ScanState where
  tokensUseful : List String
  tokensListed : List String
  wontWork : Bool
  logs : List LogEvent
  deriving DecidableEq, Repr

/-- The message logged via `Lib.error` for a style-requiring subplot with
no token. -/
def missingTokenLogMsg : String :=
  "Uses Mapbox map style, but did not set an access token."

/-- Whether a subplot's options carry a style requiring a hosted token:
`typeof style === 'string' && constants.styleValuesMapbox.indexOf(style) !== -1`. -/
def requiresToken (cs : Constants) (o : MapboxOpts) : Bool :=
  match o.style with
  | MapStyle.str s => s ∈ cs.styleValuesMapbox
  | MapStyle.obj => false

/-- One iteration of the `findAccessToken` scan loop over subplot ids. -/
def scanStep (cs : Constants) (o : MapboxOpts) (st : ScanState) : ScanState :=
  let st1 :=
    if requiresToken cs o then
      if o.accesstoken ≠ "" then
        { st with tokensUseful := pushUnique st.tokensUseful o.accesstoken }
      else
        { st with wontWork := true
                  logs := st.logs ++ [LogEvent.error missingTokenLogMsg] }
    else st
  if o.accesstoken ≠ "" then
    { st1 with tokensListed := pushUnique st1.tokensListed o.accesstoken }
  else st1

/-- The scan loop of `findAccessToken` over the mapbox subplot ids. -/
def scanSubplots (cs : Constants) (fl : FullLayout) :
    List String → ScanState → ScanState
  | [], st => st
  | id :: rest, st => scanSubplots cs fl rest (scanStep cs (fl.opts id) st)

/-- The informational message logged when tokens are listed but no style
requires one (`Lib.log([...].join(' '))` with `tokensListed.join(',')`). -/
def unusedTokensLogMsg (tokensListed : List String) : String :=
  String.intercalate " "
    ["Listed mapbox access token(s)", String.intercalate "," tokensListed,
     "but did not use a Mapbox map style, ignoring token(s)."]

/-- `findAccessToken(gd, mapboxIds)`: resolves the single token to install.
Returns the resolved token (or `Except.error ()` for the thrown
`MissingTokenError`) together with the log events emitted during the call. -/
def findAccessToken (cs : Constants) (gd : GraphDiv) (mapboxIds : List String) :
    Except Unit String × List LogEvent :=
  -- special case for Mapbox Atlas users
  if gd.context.mapboxAccessToken = some "" then (Except.ok "", [])
  else
    let st := scanSubplots cs gd.fullLayout mapboxIds
      { tokensUseful := [], tokensListed := [], wontWork := false, logs := [] }
    if st.wontWork then (Except.error (), st.logs)
    else
      match st.tokensUseful with
      | t :: restUseful =>
          if restUseful.length + 1 > 1 then
            (Except.ok t, st.logs ++ [LogEvent.warn cs.multipleTokensErrorMsg])
          else (Except.ok t, st.logs)
      | [] =>
          match st.tokensListed with
          | [] => (Except.ok "", st.logs)
          | _ :: _ =>
              (Except.ok "",
               st.logs ++ [LogEvent.info (unusedTokensLogMsg st.tokensListed)])

/-- An exception thrown by `plot`. -/
inductive PlotError where
  | versionMismatch
  | missingToken
  deriving DecidableEq, Repr

/-- The outcome of a `plot` call: the error thrown (if any), the resulting
`mapboxgl` and graph states (on a throw: the states at the throw point — in
the source nothing has been mutated yet at either throw site), the ids for
which a new wrapper object was constructed, and the log events emitted. -/
structure PlotOutcome where
  err : Option PlotError
  mgl : MapboxGL
  gd : GraphDiv
  created : List String
  logs : List LogEvent

/-- The body of the `plot` loop for one subplot id: create the wrapper if
the `_subplot` slot is unset, capture `viewInitial` if not yet recorded,
then invoke the wrapper's asynchronous plot (which appends to
`gd._promises`). Returns the updated graph and whether a wrapper was
constructed. -/
def plotOne (gd : GraphDiv) (id : String) : GraphDiv × Bool :=
  let opts := gd.fullLayout.opts id
  let created := opts.subplotWrapper.isNone
  let mapbox :=
    match opts.subplotWrapper with
    | none => { uid := gd.nextUid, viewInitial := none : MapboxWrapper }
    | some mb => mb
  let mapbox :=
    match mapbox.viewInitial with
    | none =>
        { mapbox with
          viewInitial := some
            { center := opts.center, zoom := opts.zoom,
              bearing := opts.bearing, pitch := opts.pitch } }
    | some _ => mapbox
  let gd :=
    { gd with
      fullLayout :=
        gd.fullLayout.setOpts id { opts with subplotWrapper := some mapbox }
      nextUid := if created then gd.nextUid + 1 else gd.nextUid
      promises := gd.promises + 1 }
  (gd, created)

/-- The `plot` loop over the mapbox subplot ids, collecting the ids for
which a wrapper was constructed (in iteration order). -/
def plotLoop (gd : GraphDiv) : List String → GraphDiv × List String
  | [] => (gd, [])
  | id :: rest =>
      let (gd1, created) := plotOne gd id
      let (gd2, ids) := plotLoop gd1 rest
      (gd2, if created then id :: ids else ids)

/-- `exports.plot(gd)`: version check, token resolution, global token
assignment, then the create-or-reuse loop. -/
def plot (cs : Constants) (mgl : MapboxGL) (gd : GraphDiv) : PlotOutcome :=
  if mgl.version ≠ cs.requiredVersion then
    { err := some PlotError.versionMismatch, mgl := mgl, gd := gd,
      created := [], logs := [] }
  else
    match findAccessToken cs gd gd.fullLayout.subplots with
    | (Except.error _, logs) =>
        { err := some PlotError.missingToken, mgl := mgl, gd := gd,
          created := [], logs := logs }
    | (Except.ok accessToken, logs) =>
        let mgl := { mgl with accessToken := some accessToken }
        let (gd, created) := plotLoop gd gd.fullLayout.subplots
        { err := none, mgl := mgl, gd := gd, created := created, logs := logs }

/-- The loop of `clean` over `oldFullLayout._subplots.mapbox`: collects the
keys whose wrapper's `destroy()` is invoked. -/
def cleanLoop (newFullLayout oldFullLayout : FullLayout) :
    List String → List String
  | [] => []
  | key :: rest =>
      if ¬ newFullLayout.hasEntry key ∧
          (oldFullLayout.opts key).subplotWrapper.isSome then
        key :: cleanLoop newFullLayout oldFullLayout rest
      else cleanLoop newFullLayout oldFullLayout rest

/-- `exports.clean(newFullData, newFullLayout, oldFullData, oldFullLayout)`:
returns the list of old subplot ids whose wrapper's `destroy()` was invoked
(those absent — falsy — in the new layout whose `_subplot` slot is truthy).
The layout references themselves are not modified by the source loop. -/
def clean (newFullLayout oldFullLayout : FullLayout) : List String :=
  cleanLoop newFullLayout oldFullLayout oldFullLayout.subplots

/-- The attribute rectangle of one exported image element. -/
structure ImageRect where
  x : ℚ
  y : ℚ
  width : ℚ
  height : ℚ
  deriving DecidableEq, Repr

/-- The placement of one subplot's snapshot inside the canvas, exactly as
computed in `toSVG`. -/
def imageRect (size : PlotSize) (d : Domain) : ImageRect :=
  { x := size.l + size.w * d.x0,
    y := size.t + size.h * (1 - d.y1),
    width := size.w * (d.x1 - d.x0),
    height := size.h * (d.y1 - d.y0) }

/-- The `toSVG` loop: for each subplot id take a snapshot, emit its image
rectangle, then destroy the wrapper. `none` models the TypeError raised
when a subplot id has no live wrapper (`mapbox.toImage` on `undefined`).

Modelled from the spec: the wrapper's `destroy` operation lives in the
wrapper module (`./mapbox`), which is not under `src/`; per the spec,
export is terminal for the wrapper — "After embedding, the live subplot is
destroyed ... a subsequent plot call must recreate it" — so destruction is
modelled by clearing the layout's `_subplot` slot. -/
def toSVGLoop (size : PlotSize) (fl : FullLayout) :
    List String → Option (FullLayout × List ImageRect)
  | [] => some (fl, [])
  | id :: rest =>
      let opts := fl.opts id
      match opts.subplotWrapper with
      | none => none
      | some _ =>
          let rect := imageRect size opts.domain
          let fl1 := fl.setOpts id { opts with subplotWrapper := none }
          match toSVGLoop size fl1 rest with
          | none => none
          | some (fl2, rects) => some (fl2, rect :: rects)

/-- `exports.toSVG(gd)`: export every mapbox subplot as an image element
and destroy its wrapper. -/
def toSVG (size : PlotSize) (gd : GraphDiv) :
    Option (GraphDiv × List ImageRect) :=
  match toSVGLoop size gd.fullLayout gd.fullLayout.subplots with
  | none => none
  | some (fl, rects) => some ({ gd with fullLayout := fl }, rects)

/-- The loop of `updateFx` over the current subplot ids: collects the ids
whose wrapper's `updateFx` was invoked; `Except.error ()` models the
TypeError raised when `fullLayout[id]._subplot` is unset
(`subplotObj.updateFx` on `undefined` — the source has no guard). -/
def updateFxLoop (fl : FullLayout) : List String → Except Unit (List String)
  | [] => Except.ok []
  | id :: rest =>
      match (fl.opts id).subplotWrapper with
      | none => Except.error ()
      | some _ =>
          match updateFxLoop fl rest with
          | Except.error e => Except.error e
          | Except.ok ids => Except.ok (id :: ids)

/-- `exports.updateFx(gd)`: reapply interaction bindings on each current
subplot's wrapper. No wrapper is ever created or modified (the graph state
is not touched); the result lists the ids acted upon. -/
def updateFx (gd : GraphDiv) : Except Unit (List String) :=
  updateFxLoop gd.fullLayout gd.fullLayout.subplots

/-! ### Spec-level token sets and the scan characterization -/

/-- Whether a subplot id is "offending": its style requires a hosted token
but the subplot carries none. -/
def offending (cs : Constants) (fl : FullLayout) (id : String) : Bool :=
  requiresToken cs (fl.opts id) && (fl.opts id).accesstoken == ""

/-- One step of accumulating the "useful" token set: tokens supplied by
subplots whose style requires a hosted token (deduplicated,
insertion-order). -/
def usefulStep (cs : Constants) (fl : FullLayout) (acc : List String)
    (id : String) : List String :=
  if requiresToken cs (fl.opts id) && (fl.opts id).accesstoken != "" then
    pushUnique acc (fl.opts id).accesstoken
  else acc

/-- One step of accumulating the "listed" token set: every token carried by
some subplot, regardless of style (deduplicated, insertion-order). -/
def listedStep (fl : FullLayout) (acc : List String) (id : String) :
    List String :=
  if (fl.opts id).accesstoken != "" then
    pushUnique acc (fl.opts id).accesstoken
  else acc

/-- The distinct "useful" tokens of a layout, in subplot-iteration order. -/
def usefulTokens (cs : Constants) (fl : FullLayout) (ids : List String) :
    List String :=
  ids.foldl (usefulStep cs fl) []

/-- The distinct listed tokens of a layout, in subplot-iteration order. -/
def listedTokens (fl : FullLayout) (ids : List String) : List String :=
  ids.foldl (listedStep fl) []

theorem scanStep_eq (cs : Constants) (fl : FullLayout) (id : String)
    (st : ScanState) :
    scanStep cs (fl.opts id) st =
      { tokensUseful := usefulStep cs fl st.tokensUseful id,
        tokensListed := listedStep fl st.tokensListed id,
        wontWork := st.wontWork || offending cs fl id,
        logs := st.logs ++
          (if offending cs fl id then [LogEvent.error missingTokenLogMsg]
           else []) } := by
  by_cases hreq : requiresToken cs (fl.opts id) = true <;>
    by_cases htok : (fl.opts id).accesstoken = "" <;>
      simp [scanStep, usefulStep, listedStep, offending, hreq, htok]

/-- The scan loop computes the useful and listed token sets, the failure
flag (`true` iff some subplot is offending) and one error event per
offending subplot, in iteration order. -/
theorem scanSubplots_eq (cs : Constants) (fl : FullLayout) :
    ∀ (l : List String) (st : ScanState),
    scanSubplots cs fl l st =
      { tokensUseful := l.foldl (usefulStep cs fl) st.tokensUseful,
        tokensListed := l.foldl (listedStep fl) st.tokensListed,
        wontWork := st.wontWork || l.any (offending cs fl),
        logs := st.logs ++
          (l.filter (offending cs fl)).map
            (fun _ => LogEvent.error missingTokenLogMsg) }
  | [], st => by simp [scanSubplots]
  | id :: rest, st => by
      rw [scanSubplots, scanSubplots_eq cs fl rest, scanStep_eq]
      by_cases hoff : offending cs fl id = true <;>
        simp [hoff, Bool.or_assoc, List.filter_cons]

theorem pushUnique_ne_nil (arr : List String) (item : String) :
    pushUnique arr item ≠ [] := by
  unfold pushUnique
  split
  · rename_i h
    exact List.ne_nil_of_mem h
  · simp

theorem foldl_listedStep_nil (fl : FullLayout) :
    ∀ (l : List String) (acc : List String),
    (l.foldl (listedStep fl) acc = [] ↔
      acc = [] ∧ ∀ id ∈ l, (fl.opts id).accesstoken = "")
  | [], acc => by simp
  | id :: rest, acc => by
      rw [List.foldl_cons, foldl_listedStep_nil fl rest]
      by_cases htok : (fl.opts id).accesstoken = ""
      · simp [listedStep, htok]
      · have hne : listedStep fl acc id ≠ [] := by
          simp [listedStep, htok]
          exact pushUnique_ne_nil _ _
        simp [hne, htok]

/-- `listedTokens` is empty exactly when no subplot carries a token. -/
theorem listedTokens_nil_iff (fl : FullLayout) (ids : List String) :
    listedTokens fl ids = [] ↔ ∀ id ∈ ids, (fl.opts id).accesstoken = "" := by
  rw [listedTokens, foldl_listedStep_nil]
  simp

theorem usefulTokens_nil_of_no_style (cs : Constants) (fl : FullLayout) :
    ∀ (l : List String),
    (∀ id ∈ l, requiresToken cs (fl.opts id) = false) →
    l.foldl (usefulStep cs fl) [] = []
  | [], _ => rfl
  | id :: rest, h => by
      rw [List.foldl_cons]
      have hid : requiresToken cs (fl.opts id) = false := h id (by simp)
      rw [show usefulStep cs fl [] id = [] by simp [usefulStep, hid]]
      exact usefulTokens_nil_of_no_style cs fl rest
        (fun j hj => h j (List.mem_cons_of_mem id hj))

/-- Token resolution when some subplot is offending (needs a hosted style,
has no token) and the context does not override: `MissingTokenError` after
scanning everything, one error event per offending subplot, nothing else. -/
theorem findAccessToken_missing (cs : Constants) (gd : GraphDiv)
    (ids : List String)
    (hctx : gd.context.mapboxAccessToken ≠ some "")
    (hoff : ∃ id ∈ ids, offending cs gd.fullLayout id = true) :
    findAccessToken cs gd ids =
      (Except.error (),
       (ids.filter (offending cs gd.fullLayout)).map
         (fun _ => LogEvent.error missingTokenLogMsg)) := by
  have hany : ids.any (offending cs gd.fullLayout) = true := by
    rcases hoff with ⟨id, hid, h⟩
    exact List.any_eq_true.mpr ⟨id, hid, h⟩
  simp [findAccessToken, hctx, scanSubplots_eq, hany]

/-- Token resolution when no subplot is offending and the useful set is
non-empty: the first useful token is returned, with one warning exactly
when there are at least two distinct useful tokens. -/
theorem findAccessToken_useful (cs : Constants) (gd : GraphDiv)
    (ids : List String) (t : String) (rest : List String)
    (hctx : gd.context.mapboxAccessToken ≠ some "")
    (hnooff : ∀ id ∈ ids, offending cs gd.fullLayout id = false)
    (hu : usefulTokens cs gd.fullLayout ids = t :: rest) :
    findAccessToken cs gd ids =
      (Except.ok t,
       if rest = [] then []
       else [LogEvent.warn cs.multipleTokensErrorMsg]) := by
  have hany : ids.any (offending cs gd.fullLayout) = false := by
    rw [List.any_eq_false]
    intro id hid
    simp [hnooff id hid]
  have hfil : ids.filter (offending cs gd.fullLayout) = [] :=
    List.filter_eq_nil_iff.mpr (fun id hid => by simp [hnooff id hid])
  rw [usefulTokens] at hu
  simp only [findAccessToken, hctx, if_neg, scanSubplots_eq, hany, hfil, hu]
  cases rest <;> simp

/-- Token resolution when no subplot style requires a token: the empty
token is returned, with one informational event naming the listed tokens
exactly when at least one token was listed. -/
theorem findAccessToken_unused (cs : Constants) (gd : GraphDiv)
    (ids : List String)
    (hctx : gd.context.mapboxAccessToken ≠ some "")
    (hstyle : ∀ id ∈ ids, requiresToken cs (gd.fullLayout.opts id) = false) :
    findAccessToken cs gd ids =
      (Except.ok "",
       if listedTokens gd.fullLayout ids = [] then []
       else [LogEvent.info
         (unusedTokensLogMsg (listedTokens gd.fullLayout ids))]) := by
  have hnooff : ∀ id ∈ ids, offending cs gd.fullLayout id = false := by
    intro id hid
    simp [offending, hstyle id hid]
  have hany : ids.any (offending cs gd.fullLayout) = false := by
    rw [List.any_eq_false]
    intro id hid
    simp [hnooff id hid]
  have hfil : ids.filter (offending cs gd.fullLayout) = [] :=
    List.filter_eq_nil_iff.mpr (fun id hid => by simp [hnooff id hid])
  have hu : ids.foldl (usefulStep cs gd.fullLayout) [] = [] :=
    usefulTokens_nil_of_no_style cs gd.fullLayout ids hstyle
  simp only [findAccessToken, hctx, if_neg, scanSubplots_eq, hany, hfil, hu]
  rcases hlist : listedTokens gd.fullLayout ids with _ | ⟨l, ls⟩
  · rw [listedTokens] at hlist
    simp [hlist]
  · rw [listedTokens] at hlist
    simp [hlist, unusedTokensLogMsg, listedTokens]

/-! ### Lifecycle lemmas for the `plot` loop -/

theorem setOpts_opts_self (fl : FullLayout) (id : String) (o : MapboxOpts) :
    (fl.setOpts id o).opts id = o := by
  simp [FullLayout.setOpts]

theorem setOpts_opts_ne (fl : FullLayout) (id : String) (o : MapboxOpts)
    (j : String) (h : j ≠ id) : (fl.setOpts id o).opts j = fl.opts j := by
  simp [FullLayout.setOpts, h]

theorem setOpts_subplots (fl : FullLayout) (id : String) (o : MapboxOpts) :
    (fl.setOpts id o).subplots = fl.subplots := rfl

theorem setOpts_self (fl : FullLayout) (id : String) :
    fl.setOpts id (fl.opts id) = fl := by
  cases fl with
  | mk subplots hasEntry opts =>
      simp only [FullLayout.setOpts]
      congr 1
      funext j
      by_cases h : j = id
      · subst h
        simp
      · simp [h]

/-- A subplot id is "ready" in a layout when its wrapper slot holds a
wrapper whose initial view state has been captured. -/
def wrapperReady (fl : FullLayout) (id : String) : Prop :=
  ∃ mb : MapboxWrapper, (fl.opts id).subplotWrapper = some mb ∧
    ∃ v : ViewInitial, mb.viewInitial = some v

theorem plotOne_subplots (gd : GraphDiv) (id : String) :
    (plotOne gd id).1.fullLayout.subplots = gd.fullLayout.subplots := by
  simp [plotOne, setOpts_subplots]

theorem plotOne_context (gd : GraphDiv) (id : String) :
    (plotOne gd id).1.context = gd.context := by
  simp [plotOne]

theorem plotOne_opts_ne (gd : GraphDiv) (id j : String) (h : j ≠ id) :
    (plotOne gd id).1.fullLayout.opts j = gd.fullLayout.opts j := by
  simp [plotOne, setOpts_opts_ne _ _ _ _ h]

theorem plotOne_opts_self (gd : GraphDiv) (id : String) :
    ∃ mb : MapboxWrapper,
      (plotOne gd id).1.fullLayout.opts id =
        { gd.fullLayout.opts id with subplotWrapper := some mb } ∧
      ∃ v : ViewInitial, mb.viewInitial = some v := by
  rcases hw : (gd.fullLayout.opts id).subplotWrapper with _ | mb
  · simp only [plotOne, hw, setOpts_opts_self]
    exact ⟨_, rfl, _, rfl⟩
  · rcases hv : mb.viewInitial with _ | v
    · simp only [plotOne, hw, hv, setOpts_opts_self]
      exact ⟨_, rfl, _, rfl⟩
    · simp only [plotOne, hw, hv, setOpts_opts_self]
      exact ⟨mb, rfl, v, hv⟩

theorem plotOne_fields (gd : GraphDiv) (id j : String) :
    ((plotOne gd id).1.fullLayout.opts j).style =
      (gd.fullLayout.opts j).style ∧
    ((plotOne gd id).1.fullLayout.opts j).accesstoken =
      (gd.fullLayout.opts j).accesstoken := by
  by_cases h : j = id
  · subst h
    rcases plotOne_opts_self gd j with ⟨mb, heq, -⟩
    rw [heq]
    exact ⟨rfl, rfl⟩
  · rw [plotOne_opts_ne gd id j h]
    exact ⟨rfl, rfl⟩

theorem plotOne_ready_self (gd : GraphDiv) (id : String) :
    wrapperReady (plotOne gd id).1.fullLayout id := by
  rcases plotOne_opts_self gd id with ⟨mb, heq, v, hv⟩
  exact ⟨mb, by rw [heq], v, hv⟩

theorem plotOne_ready_preserved (gd : GraphDiv) (id j : String)
    (h : wrapperReady gd.fullLayout j) :
    wrapperReady (plotOne gd id).1.fullLayout j := by
  by_cases hj : j = id
  · subst hj
    exact plotOne_ready_self gd j
  · rcases h with ⟨mb, hmb, v, hv⟩
    exact ⟨mb, by rw [plotOne_opts_ne gd id j hj]; exact hmb, v, hv⟩

theorem plotOne_stable (gd : GraphDiv) (id : String)
    (h : wrapperReady gd.fullLayout id) :
    plotOne gd id = ({ gd with promises := gd.promises + 1 }, false) := by
  rcases h with ⟨mb, hmb, v, hv⟩
  have hopts : ({ gd.fullLayout.opts id with
      subplotWrapper := some mb } : MapboxOpts) = gd.fullLayout.opts id := by
    rw [← hmb]
  simp only [plotOne, hmb, hv, Option.isNone_some, if_neg]
  rw [hopts, setOpts_self]
  simp

theorem plotLoop_subplots (gd : GraphDiv) :
    ∀ l : List String,
    (plotLoop gd l).1.fullLayout.subplots = gd.fullLayout.subplots
  | [] => rfl
  | id :: rest => by
      rcases h1 : plotOne gd id with ⟨gd1, c⟩
      rcases h2 : plotLoop gd1 rest with ⟨gd2, ids⟩
      have e1 : gd1.fullLayout.subplots = gd.fullLayout.subplots := by
        rw [show gd1 = (plotOne gd id).1 by rw [h1]]
        exact plotOne_subplots gd id
      have e2 := plotLoop_subplots gd1 rest
      rw [h2] at e2
      simp only [plotLoop, h1, h2]
      rw [e2, e1]

theorem plotLoop_context (gd : GraphDiv) :
    ∀ l : List String, (plotLoop gd l).1.context = gd.context
  | [] => rfl
  | id :: rest => by
      rcases h1 : plotOne gd id with ⟨gd1, c⟩
      have e1 : gd1.context = gd.context := by
        rw [show gd1 = (plotOne gd id).1 by rw [h1]]
        exact plotOne_context gd id
      have e2 := plotLoop_context gd1 rest
      simp only [plotLoop, h1]
      rcases h2 : plotLoop gd1 rest with ⟨gd2, ids⟩
      rw [h2] at e2
      simp only []
      rw [e2, e1]

theorem plotLoop_fields (gd : GraphDiv) :
    ∀ (l : List String) (j : String),
    ((plotLoop gd l).1.fullLayout.opts j).style =
      (gd.fullLayout.opts j).style ∧
    ((plotLoop gd l).1.fullLayout.opts j).accesstoken =
      (gd.fullLayout.opts j).accesstoken
  | [], j => ⟨rfl, rfl⟩
  | id :: rest, j => by
      rcases h1 : plotOne gd id with ⟨gd1, c⟩
      have e1 := plotOne_fields gd id j
      rw [h1] at e1
      have e2 := plotLoop_fields gd1 rest j
      simp only [plotLoop, h1]
      rcases h2 : plotLoop gd1 rest with ⟨gd2, ids⟩
      rw [h2] at e2
      simp only []
      exact ⟨e2.1.trans e1.1, e2.2.trans e1.2⟩

theorem plotLoop_ready_preserved (gd : GraphDiv) :
    ∀ (l : List String) (j : String),
    wrapperReady gd.fullLayout j →
    wrapperReady (plotLoop gd l).1.fullLayout j
  | [], j, h => h
  | id :: rest, j, h => by
      rcases h1 : plotOne gd id with ⟨gd1, c⟩
      have hr : wrapperReady gd1.fullLayout j := by
        rw [show gd1 = (plotOne gd id).1 by rw [h1]]
        exact plotOne_ready_preserved gd id j h
      have e2 := plotLoop_ready_preserved gd1 rest j hr
      simp only [plotLoop, h1]
      rcases h2 : plotLoop gd1 rest with ⟨gd2, ids⟩
      rw [h2] at e2
      exact e2

theorem plotLoop_ready (gd : GraphDiv) :
    ∀ (l : List String) (j : String), j ∈ l →
    wrapperReady (plotLoop gd l).1.fullLayout j
  | id :: rest, j, hj => by
      rcases h1 : plotOne gd id with ⟨gd1, c⟩
      have hr : wrapperReady gd1.fullLayout j ∨ j ∈ rest := by
        rcases List.mem_cons.mp hj with hja | hjr
        · left
          subst hja
          rw [show gd1 = (plotOne gd j).1 by rw [h1]]
          exact plotOne_ready_self gd j
        · right
          exact hjr
      simp only [plotLoop, h1]
      rcases h2 : plotLoop gd1 rest with ⟨gd2, ids⟩
      rcases hr with hready | hmem
      · have e2 := plotLoop_ready_preserved gd1 rest j hready
        rw [h2] at e2
        exact e2
      · have e2 := plotLoop_ready gd1 rest j hmem
        rw [h2] at e2
        exact e2

theorem plotLoop_stable (gd : GraphDiv) :
    ∀ l : List String,
    (∀ id ∈ l, wrapperReady gd.fullLayout id) →
    plotLoop gd l = ({ gd with promises := gd.promises + l.length }, [])
  | [], _ => by simp [plotLoop]
  | id :: rest, h => by
      have h1 : plotOne gd id = ({ gd with promises := gd.promises + 1 }, false) :=
        plotOne_stable gd id (h id (by simp))
      have h2 : plotLoop { gd with promises := gd.promises + 1 } rest =
          ({ gd with promises := gd.promises + 1 + rest.length }, []) := by
        have := plotLoop_stable { gd with promises := gd.promises + 1 } rest
          (fun j hj => h j (List.mem_cons_of_mem id hj))
        simpa using this
      simp only [plotLoop, h1, h2]
      have harith : gd.promises + 1 + rest.length =
          gd.promises + (id :: rest).length := by
        simp only [List.length_cons]
        omega
      rw [harith]
      simp

theorem requiresToken_congr (cs : Constants) (o o' : MapboxOpts)
    (hs : o.style = o'.style) : requiresToken cs o = requiresToken cs o' := by
  unfold requiresToken
  rw [hs]

theorem scanStep_congr (cs : Constants) (o o' : MapboxOpts)
    (hs : o.style = o'.style) (ht : o.accesstoken = o'.accesstoken)
    (st : ScanState) : scanStep cs o st = scanStep cs o' st := by
  simp only [scanStep, requiresToken_congr cs o o' hs, ht]

theorem scanSubplots_congr (cs : Constants) (fl fl' : FullLayout)
    (h : ∀ id, (fl.opts id).style = (fl'.opts id).style ∧
      (fl.opts id).accesstoken = (fl'.opts id).accesstoken) :
    ∀ (l : List String) (st : ScanState),
    scanSubplots cs fl l st = scanSubplots cs fl' l st
  | [], _ => rfl
  | id :: rest, st => by
      rw [scanSubplots, scanSubplots,
        scanStep_congr cs _ _ (h id).1 (h id).2,
        scanSubplots_congr cs fl fl' h rest]

/-- Token resolution only reads the context override and each subplot's
style and token, so it is unchanged by updates to the wrapper slots. -/
theorem findAccessToken_congr (cs : Constants) (gd gd' : GraphDiv)
    (ids : List String) (hc : gd'.context = gd.context)
    (h : ∀ id, (gd'.fullLayout.opts id).style =
        (gd.fullLayout.opts id).style ∧
      (gd'.fullLayout.opts id).accesstoken =
        (gd.fullLayout.opts id).accesstoken) :
    findAccessToken cs gd' ids = findAccessToken cs gd ids := by
  unfold findAccessToken
  rw [hc, scanSubplots_congr cs gd'.fullLayout gd.fullLayout h]

theorem plotOne_created (gd : GraphDiv) (id : String) :
    (plotOne gd id).2 = (gd.fullLayout.opts id).subplotWrapper.isNone := by
  simp [plotOne]

/-- Any id in the loop list whose wrapper slot is unset at loop entry gets
a wrapper constructed during the loop. -/
theorem plotLoop_created_mem (gd : GraphDiv) :
    ∀ (l : List String) (id : String), id ∈ l →
    (gd.fullLayout.opts id).subplotWrapper = none →
    id ∈ (plotLoop gd l).2
  | a :: rest, id, hid, hw => by
      rcases h1 : plotOne gd a with ⟨gd1, c⟩
      by_cases ha : a = id
      · subst ha
        have hc : c = true := by
          have := plotOne_created gd a
          rw [h1, hw] at this
          exact this
        simp only [plotLoop, h1, hc]
        rcases plotLoop gd1 rest with ⟨gd2, ids⟩
        simp
      · have hidr : id ∈ rest := by
          rcases List.mem_cons.mp hid with h | h
          · exact absurd h.symm ha
          · exact h
        have hw1 : (gd1.fullLayout.opts id).subplotWrapper = none := by
          have := plotOne_opts_ne gd a id (fun h => ha h.symm)
          rw [h1] at this
          rw [this]
          exact hw
        have hmem := plotLoop_created_mem gd1 rest id hidr hw1
        simp only [plotLoop, h1]
        rcases h2 : plotLoop gd1 rest with ⟨gd2, ids⟩
        rw [h2] at hmem
        by_cases hc : c = true <;> simp [hc, hmem]

/-- The `toSVG` loop on a duplicate-free id list with every wrapper live:
it emits one image rectangle per subplot, computed by `imageRect` from the
subplot's domain, and clears every processed wrapper slot, touching
nothing else. -/
theorem toSVGLoop_spec (size : PlotSize) :
    ∀ (l : List String) (fl : FullLayout), l.Nodup →
    (∀ id ∈ l, ((fl.opts id).subplotWrapper).isSome) →
    ∃ fl2, toSVGLoop size fl l =
        some (fl2, l.map (fun id => imageRect size ((fl.opts id).domain))) ∧
      fl2.subplots = fl.subplots ∧
      (∀ id ∈ l, fl2.opts id =
        { fl.opts id with subplotWrapper := none }) ∧
      (∀ j, j ∉ l → fl2.opts j = fl.opts j)
  | [], fl, _, _ => ⟨fl, by simp [toSVGLoop], rfl, by simp, fun _ _ => rfl⟩
  | id :: rest, fl, hnd, hw => by
      rcases hmb : (fl.opts id).subplotWrapper with _ | mb
      · have := hw id (by simp)
        rw [hmb] at this
        simp at this
      · have hndr : rest.Nodup := (List.nodup_cons.mp hnd).2
        have hidr : id ∉ rest := (List.nodup_cons.mp hnd).1
        set fl1 := fl.setOpts id { fl.opts id with subplotWrapper := none }
          with hfl1
        have hwr : ∀ j ∈ rest, ((fl1.opts j).subplotWrapper).isSome := by
          intro j hj
          have hji : j ≠ id := fun h => hidr (h ▸ hj)
          rw [hfl1, setOpts_opts_ne _ _ _ _ hji]
          exact hw j (List.mem_cons_of_mem id hj)
        rcases toSVGLoop_spec size rest fl1 hndr hwr with
          ⟨fl2, hloop, hsub, hin, hout⟩
        refine ⟨fl2, ?_, ?_, ?_, ?_⟩
        · have hmap : rest.map
              (fun j => imageRect size ((fl1.opts j).domain)) =
              rest.map (fun j => imageRect size ((fl.opts j).domain)) := by
            refine List.map_congr_left (fun j hj => ?_)
            have hji : j ≠ id := fun h => hidr (h ▸ hj)
            rw [hfl1, setOpts_opts_ne _ _ _ _ hji]
          simp only [toSVGLoop, hmb, ← hfl1, hloop, hmap, List.map_cons]
        · rw [hsub, hfl1, setOpts_subplots]
        · intro j hj
          rcases List.mem_cons.mp hj with hja | hjr
          · subst hja
            rw [hout j hidr, hfl1, setOpts_opts_self]
          · have := hin j hjr
            rw [this]
            have hji : j ≠ id := fun h => hidr (h ▸ hjr)
            rw [hfl1, setOpts_opts_ne _ _ _ _ hji]
        · intro j hj
          have hjr : j ∉ rest := fun h => hj (List.mem_cons_of_mem id h)
          have hji : j ≠ id := fun h => hj (h ▸ List.mem_cons_self id rest)
          rw [hout j hjr, hfl1, setOpts_opts_ne _ _ _ _ hji]

/-- Membership in the destroy list of `clean`: a key is destroyed exactly
when it was previously present, is absent (falsy) in the new layout, and
its wrapper slot is set. -/
theorem cleanLoop_mem (newFL oldFL : FullLayout) :
    ∀ (l : List String) (id : String),
    (id ∈ cleanLoop newFL oldFL l ↔
      id ∈ l ∧ newFL.hasEntry id = false ∧
        ((oldFL.opts id).subplotWrapper).isSome)
  | [], id => by simp [cleanLoop]
  | key :: rest, id => by
      by_cases hc : ¬ newFL.hasEntry key = true ∧
          ((oldFL.opts key).subplotWrapper).isSome = true
      · rw [cleanLoop, if_pos hc, List.mem_cons, List.mem_cons,
          cleanLoop_mem newFL oldFL rest]
        constructor
        · rintro (h | ⟨h1, h2, h3⟩)
          · subst h
            exact ⟨Or.inl rfl, by simpa using hc.1, hc.2⟩
          · exact ⟨Or.inr h1, h2, h3⟩
        · rintro ⟨h1 | h1, h2, h3⟩
          · subst h1
            exact Or.inl rfl
          · exact Or.inr ⟨h1, h2, h3⟩
      · rw [cleanLoop, if_neg hc, cleanLoop_mem newFL oldFL rest,
          List.mem_cons]
        constructor
        · rintro ⟨h1, h2, h3⟩
          exact ⟨Or.inr h1, h2, h3⟩
        · rintro ⟨h1 | h1, h2, h3⟩
          · subst h1
            exact absurd ⟨by simp [h2], h3⟩ hc
          · exact ⟨h1, h2, h3⟩

/-- The `updateFx` loop succeeds and rebinds exactly the listed ids when
each of them has a live wrapper. -/
theorem updateFxLoop_ok (fl : FullLayout) :
    ∀ l : List String,
    (∀ id ∈ l, ((fl.opts id).subplotWrapper).isSome) →
    updateFxLoop fl l = Except.ok l
  | [], _ => rfl
  | id :: rest, h => by
      rcases hmb : (fl.opts id).subplotWrapper with _ | mb
      · have := h id (by simp)
        rw [hmb] at this
        simp at this
      · rw [updateFxLoop, hmb,
          updateFxLoop_ok fl rest (fun j hj => h j (List.mem_cons_of_mem id hj))]

/-! ### Concrete sample states used by the witnesses and counterexamples -/

/-- A concrete constants record (the values stand in for `./constants`). -/
def csX : Constants :=
  { requiredVersion := "0.54.0",
    styleValuesMapbox :=
      ["basic", "streets", "outdoors", "light", "dark",
       "satellite", "satellite-streets"],
    wrongVersionErrorMsg := "Unexpected mapbox-gl version",
    noAccessTokenErrorMsg := "Missing Mapbox access token",
    multipleTokensErrorMsg :=
      "Multiple mapbox access tokens found, using first" }

def centerX : Center := { lon := 0, lat := 0 }

def domainFull : Domain := { x0 := 0, x1 := 1, y0 := 0, y1 := 1 }

/-- Builds subplot options with the shared view parameters. -/
def mkOpts (style : MapStyle) (token : String)
    (w : Option MapboxWrapper) : MapboxOpts :=
  { style := style, accesstoken := token, center := centerX, zoom := 1,
    bearing := 0, pitch := 0, domain := domainFull, subplotWrapper := w }

def viewX : ViewInitial :=
  { center := centerX, zoom := 1, bearing := 0, pitch := 0 }

def wrapperX : MapboxWrapper := { uid := 0, viewInitial := some viewX }

def mglGood : MapboxGL := { version := "0.54.0", accessToken := none }

def mglBad : MapboxGL := { version := "9.9.9", accessToken := none }

/-- One subplot, hosted style, token set, wrapper not yet created. -/
def gdBasic : GraphDiv :=
  { fullLayout :=
      { subplots := ["mapbox"],
        hasEntry := fun j => j == "mapbox",
        opts := fun _ => mkOpts (MapStyle.str "basic") "tokA" none },
    context := { mapboxAccessToken := none },
    promises := 0, nextUid := 0 }

/-- One subplot, hosted style, no token: the offending configuration. -/
def gdMissing : GraphDiv :=
  { fullLayout :=
      { subplots := ["mapbox"],
        hasEntry := fun j => j == "mapbox",
        opts := fun _ => mkOpts (MapStyle.str "basic") "" none },
    context := { mapboxAccessToken := none },
    promises := 0, nextUid := 0 }

/-- The offending configuration under the empty-token context override. -/
def gdAtlas : GraphDiv :=
  { fullLayout :=
      { subplots := ["mapbox"],
        hasEntry := fun j => j == "mapbox",
        opts := fun _ => mkOpts (MapStyle.str "basic") "" none },
    context := { mapboxAccessToken := some "" },
    promises := 0, nextUid := 0 }

/-- Two subplots: the first carries a useful token, the second needs a
hosted style but has none. -/
def gdHalfMissing : GraphDiv :=
  { fullLayout :=
      { subplots := ["mapbox", "mapbox2"],
        hasEntry := fun j => j == "mapbox" || j == "mapbox2",
        opts := fun j =>
          if j == "mapbox2" then mkOpts (MapStyle.str "basic") "" none
          else mkOpts (MapStyle.str "basic") "tokA" none },
    context := { mapboxAccessToken := none },
    promises := 0, nextUid := 0 }

/-- Two subplots with two distinct useful tokens. -/
def gdTwoTokens : GraphDiv :=
  { fullLayout :=
      { subplots := ["mapbox", "mapbox2"],
        hasEntry := fun j => j == "mapbox" || j == "mapbox2",
        opts := fun j =>
          if j == "mapbox2" then mkOpts (MapStyle.str "streets") "tokB" none
          else mkOpts (MapStyle.str "basic") "tokA" none },
    context := { mapboxAccessToken := none },
    promises := 0, nextUid := 0 }

/-- One subplot with a non-hosted style but a listed token, under the
empty-token context override. -/
def gdListedAtlas : GraphDiv :=
  { fullLayout :=
      { subplots := ["mapbox"],
        hasEntry := fun j => j == "mapbox",
        opts := fun _ => mkOpts (MapStyle.str "white-bg") "tokA" none },
    context := { mapboxAccessToken := some "" },
    promises := 0, nextUid := 0 }

/-- One subplot with a non-hosted style but a listed token. -/
def gdListed : GraphDiv :=
  { fullLayout :=
      { subplots := ["mapbox"],
        hasEntry := fun j => j == "mapbox",
        opts := fun _ => mkOpts (MapStyle.str "white-bg") "tokA" none },
    context := { mapboxAccessToken := none },
    promises := 0, nextUid := 0 }

/-- One subplot with a live, initialized wrapper. -/
def gdLive : GraphDiv :=
  { fullLayout :=
      { subplots := ["mapbox"],
        hasEntry := fun j => j == "mapbox",
        opts := fun _ => mkOpts (MapStyle.str "basic") "tokA" (some wrapperX) },
    context := { mapboxAccessToken := none },
    promises := 0, nextUid := 1 }

/-- Old layout with ids A = "mapbox" and B = "mapbox2", both with live
wrappers. -/
def oldAB : FullLayout :=
  { subplots := ["mapbox", "mapbox2"],
    hasEntry := fun j => j == "mapbox" || j == "mapbox2",
    opts := fun j =>
      if j == "mapbox2" then
        mkOpts (MapStyle.str "streets") "tokB"
          (some { uid := 1, viewInitial := some viewX })
      else mkOpts (MapStyle.str "basic") "tokA" (some wrapperX) }

/-- Old layout with ids A and B where B was never plotted (no wrapper). -/
def oldABnoB : FullLayout :=
  { subplots := ["mapbox", "mapbox2"],
    hasEntry := fun j => j == "mapbox" || j == "mapbox2",
    opts := fun j =>
      if j == "mapbox2" then mkOpts (MapStyle.str "streets") "tokB" none
      else mkOpts (MapStyle.str "basic") "tokA" (some wrapperX) }

/-- New layout containing only id A = "mapbox". -/
def newOnlyA : FullLayout :=
  { subplots := ["mapbox"],
    hasEntry := fun j => j == "mapbox",
    opts := fun _ => mkOpts (MapStyle.str "basic") "tokA" none }

/-! ### Claim theorems -/

/-- C1: if the installed engine version string differs from the required
version constant, `plot` throws `VersionMismatchError` synchronously before
touching any subplot state: no token resolution runs (no log events), no
wrapper is created or mutated (graph state unchanged, nothing created), and
the global access token is not set (engine state unchanged). -/
theorem mapbox_plot_version_mismatch (cs : Constants) (mgl : MapboxGL)
    (gd : GraphDiv) (h : mgl.version ≠ cs.requiredVersion) :
    plot cs mgl gd =
      { err := some PlotError.versionMismatch, mgl := mgl, gd := gd,
        created := [], logs := [] } := by
  simp [plot, h]

theorem mapbox_plot_version_mismatch_witness :
    plot csX mglBad gdBasic =
      { err := some PlotError.versionMismatch, mgl := mglBad, gd := gdBasic,
        created := [], logs := [] } :=
  mapbox_plot_version_mismatch csX mglBad gdBasic (by decide)

/-- C2: if at least one subplot has a recognized hosted style but no token
and the context does not override with the empty token, `plot` (with a
matching engine version) fails with `MissingTokenError`; one error event is
logged per offending subplot (the scan covers every subplot before the
throw), no wrapper is created or mutated (graph state unchanged, nothing
created), and the global access token is not set (engine state unchanged). -/
theorem mapbox_plot_missing_token (cs : Constants) (mgl : MapboxGL)
    (gd : GraphDiv)
    (hv : mgl.version = cs.requiredVersion)
    (hctx : gd.context.mapboxAccessToken ≠ some "")
    (hoff : ∃ id ∈ gd.fullLayout.subplots,
      requiresToken cs (gd.fullLayout.opts id) = true ∧
      (gd.fullLayout.opts id).accesstoken = "") :
    plot cs mgl gd =
      { err := some PlotError.missingToken, mgl := mgl, gd := gd,
        created := [],
        logs := (gd.fullLayout.subplots.filter
            (offending cs gd.fullLayout)).map
          (fun _ => LogEvent.error missingTokenLogMsg) } := by
  have hoffB : ∃ id ∈ gd.fullLayout.subplots,
      offending cs gd.fullLayout id = true := by
    rcases hoff with ⟨id, hid, hr, ht⟩
    exact ⟨id, hid, by simp [offending, hr, ht]⟩
  have hfa := findAccessToken_missing cs gd gd.fullLayout.subplots hctx hoffB
  simp [plot, hv, hfa]

theorem mapbox_plot_missing_token_witness :
    plot csX mglGood gdMissing =
      { err := some PlotError.missingToken, mgl := mglGood, gd := gdMissing,
        created := [],
        logs := [LogEvent.error missingTokenLogMsg] } :=
  mapbox_plot_missing_token csX mglGood gdMissing (by decide) (by decide)
    (by decide)

/-- C3: when the execution context requests the empty token, resolution
returns the empty string immediately: no `MissingTokenError` even for an
offending layout, and no log events of any kind. -/
theorem mapbox_findAccessToken_atlas (cs : Constants) (gd : GraphDiv)
    (ids : List String) (h : gd.context.mapboxAccessToken = some "") :
    findAccessToken cs gd ids = (Except.ok "", []) := by
  simp [findAccessToken, h]

theorem mapbox_findAccessToken_atlas_witness :
    findAccessToken csX gdAtlas gdAtlas.fullLayout.subplots =
      (Except.ok "", []) :=
  mapbox_findAccessToken_atlas csX gdAtlas gdAtlas.fullLayout.subplots rfl

/-- C4 as frozen is false: in `gdHalfMissing` the useful-token set is
non-empty (`["tokA"]`), yet resolution does not return `"tokA"` — it throws
`MissingTokenError` because another subplot has a hosted style with no
token. -/
theorem mapbox_first_useful_token_cex :
    usefulTokens csX gdHalfMissing.fullLayout
        gdHalfMissing.fullLayout.subplots = ["tokA"] ∧
    (findAccessToken csX gdHalfMissing
        gdHalfMissing.fullLayout.subplots).1 = Except.error () := by
  constructor
  · rfl
  · rfl

/-- C4 (amended): provided the context does not override with the empty
token and every subplot with a recognized hosted style carries a token, if
the set of distinct useful tokens is non-empty then resolution returns its
first element (by subplot-iteration order, later duplicates ignored), with
exactly one warning when there are at least two distinct useful tokens and
none when there is exactly one. -/
theorem mapbox_first_useful_token (cs : Constants) (gd : GraphDiv)
    (ids : List String) (t : String) (rest : List String)
    (hctx : gd.context.mapboxAccessToken ≠ some "")
    (hnomiss : ∀ id ∈ ids, requiresToken cs (gd.fullLayout.opts id) = true →
      (gd.fullLayout.opts id).accesstoken ≠ "")
    (hu : usefulTokens cs gd.fullLayout ids = t :: rest) :
    findAccessToken cs gd ids =
      (Except.ok t,
       if rest = [] then []
       else [LogEvent.warn cs.multipleTokensErrorMsg]) := by
  have hnooff : ∀ id ∈ ids, offending cs gd.fullLayout id = false := by
    intro id hid
    by_cases hr : requiresToken cs (gd.fullLayout.opts id) = true
    · simp [offending, hr, hnomiss id hid hr]
    · simp [offending, Bool.eq_false_iff.mpr hr]
  exact findAccessToken_useful cs gd ids t rest hctx hnooff hu

theorem mapbox_first_useful_token_witness :
    findAccessToken csX gdTwoTokens gdTwoTokens.fullLayout.subplots =
      (Except.ok "tokA", [LogEvent.warn csX.multipleTokensErrorMsg]) :=
  mapbox_first_useful_token csX gdTwoTokens
    gdTwoTokens.fullLayout.subplots "tokA" ["tokB"] (by decide) (by decide)
    (by decide)

/-- C5 as frozen is false: in `gdListedAtlas` no style is hosted and a
token is listed, but under the empty-token context override resolution
returns the empty string with no informational log at all (the claim
demands exactly one). -/
theorem mapbox_unused_tokens_cex :
    (∀ id ∈ gdListedAtlas.fullLayout.subplots,
      requiresToken csX (gdListedAtlas.fullLayout.opts id) = false) ∧
    listedTokens gdListedAtlas.fullLayout
      gdListedAtlas.fullLayout.subplots = ["tokA"] ∧
    findAccessToken csX gdListedAtlas
      gdListedAtlas.fullLayout.subplots = (Except.ok "", []) := by
  refine ⟨by decide, ?_, ?_⟩
  · rfl
  · rfl

/-- C5 (amended): provided the context does not override with the empty
token, if no subplot style is a recognized hosted style then resolution
returns the empty string regardless of the listed tokens, emitting exactly
one informational event naming the listed tokens when at least one token
is listed and none otherwise (the listed set is empty exactly when no
subplot carries a token). -/
theorem mapbox_unused_tokens (cs : Constants) (gd : GraphDiv)
    (ids : List String)
    (hctx : gd.context.mapboxAccessToken ≠ some "")
    (hstyle : ∀ id ∈ ids, requiresToken cs (gd.fullLayout.opts id) = false) :
    findAccessToken cs gd ids =
      (Except.ok "",
       if listedTokens gd.fullLayout ids = [] then []
       else [LogEvent.info
         (unusedTokensLogMsg (listedTokens gd.fullLayout ids))]) ∧
    (listedTokens gd.fullLayout ids = [] ↔
      ∀ id ∈ ids, (gd.fullLayout.opts id).accesstoken = "") :=
  ⟨findAccessToken_unused cs gd ids hctx hstyle,
   listedTokens_nil_iff gd.fullLayout ids⟩

theorem mapbox_unused_tokens_witness :
    findAccessToken csX gdListed gdListed.fullLayout.subplots =
      (Except.ok "",
       [LogEvent.info (unusedTokensLogMsg ["tokA"])]) ∧
    (listedTokens gdListed.fullLayout gdListed.fullLayout.subplots = [] ↔
      ∀ id ∈ gdListed.fullLayout.subplots,
        (gdListed.fullLayout.opts id).accesstoken = "") :=
  mapbox_unused_tokens csX gdListed gdListed.fullLayout.subplots
    (by decide) (by decide)

/-- C6: calling `plot` twice in succession with an unchanged layout is
idempotent on wrapper state: the second call succeeds, constructs no
wrapper for any id (`created = []`, the identity counter does not move),
and leaves every wrapper and its already-set initial view state exactly as
the first call left them (the full layout is unchanged). -/
theorem mapbox_plot_idempotent (cs : Constants) (mgl : MapboxGL)
    (gd : GraphDiv) (h : (plot cs mgl gd).err = none) :
    (plot cs (plot cs mgl gd).mgl (plot cs mgl gd).gd).err = none ∧
    (plot cs (plot cs mgl gd).mgl (plot cs mgl gd).gd).created = [] ∧
    (plot cs (plot cs mgl gd).mgl (plot cs mgl gd).gd).gd.fullLayout =
      (plot cs mgl gd).gd.fullLayout ∧
    (plot cs (plot cs mgl gd).mgl (plot cs mgl gd).gd).gd.nextUid =
      (plot cs mgl gd).gd.nextUid := by
  by_cases hv : mgl.version = cs.requiredVersion
  case neg => simp [plot, hv] at h
  rcases hfa : findAccessToken cs gd gd.fullLayout.subplots with ⟨res, logs⟩
  cases res with
  | error e => simp [plot, hv, hfa] at h
  | ok tok =>
      rcases hpl : plotLoop gd gd.fullLayout.subplots with ⟨gd1, created1⟩
      have ho1 : plot cs mgl gd =
          { err := none, mgl := { mgl with accessToken := some tok },
            gd := gd1, created := created1, logs := logs } := by
        simp [plot, hv, hfa, hpl]
      have hsub : gd1.fullLayout.subplots = gd.fullLayout.subplots := by
        have e := plotLoop_subplots gd gd.fullLayout.subplots
        rw [hpl] at e
        exact e
      have hctx : gd1.context = gd.context := by
        have e := plotLoop_context gd gd.fullLayout.subplots
        rw [hpl] at e
        exact e
      have hflds : ∀ j, (gd1.fullLayout.opts j).style =
          (gd.fullLayout.opts j).style ∧
          (gd1.fullLayout.opts j).accesstoken =
          (gd.fullLayout.opts j).accesstoken := by
        intro j
        have e := plotLoop_fields gd gd.fullLayout.subplots j
        rw [hpl] at e
        exact e
      have hready : ∀ j ∈ gd1.fullLayout.subplots,
          wrapperReady gd1.fullLayout j := by
        intro j hj
        rw [hsub] at hj
        have e := plotLoop_ready gd gd.fullLayout.subplots j hj
        rw [hpl] at e
        exact e
      have hfa1 : findAccessToken cs gd1 gd1.fullLayout.subplots =
          (Except.ok tok, logs) := by
        rw [hsub,
          findAccessToken_congr cs gd gd1 gd.fullLayout.subplots hctx hflds,
          hfa]
      have hpl1 : plotLoop gd1 gd1.fullLayout.subplots =
          ({ gd1 with promises :=
              gd1.promises + gd1.fullLayout.subplots.length }, []) :=
        plotLoop_stable gd1 gd1.fullLayout.subplots hready
      rw [ho1]
      simp [plot, hv, hfa1, hpl1]

theorem mapbox_plot_idempotent_witness :
    (plot csX mglGood gdBasic).err = none ∧
    ((plot csX (plot csX mglGood gdBasic).mgl
        (plot csX mglGood gdBasic).gd).err = none ∧
      (plot csX (plot csX mglGood gdBasic).mgl
        (plot csX mglGood gdBasic).gd).created = [] ∧
      (plot csX (plot csX mglGood gdBasic).mgl
        (plot csX mglGood gdBasic).gd).gd.fullLayout =
        (plot csX mglGood gdBasic).gd.fullLayout ∧
      (plot csX (plot csX mglGood gdBasic).mgl
        (plot csX mglGood gdBasic).gd).gd.nextUid =
        (plot csX mglGood gdBasic).gd.nextUid) :=
  ⟨by decide, mapbox_plot_idempotent csX mglGood gdBasic (by decide)⟩

/-- C7: `clean` invokes destroy exactly on the previously-present ids that
are absent from the new layout and have a wrapper; in the concrete
two-subplot scenario (old ids A = "mapbox" and B = "mapbox2", new layout
containing only A) exactly B is destroyed. A wrapper not in the destroy
list is untouched — `clean` performs no other state change. -/
theorem mapbox_clean_destroys_exactly :
    (∀ (newFL oldFL : FullLayout) (id : String),
      id ∈ clean newFL oldFL ↔
        id ∈ oldFL.subplots ∧ newFL.hasEntry id = false ∧
          ((oldFL.opts id).subplotWrapper).isSome) ∧
    clean newOnlyA oldAB = ["mapbox2"] :=
  ⟨fun newFL oldFL id => cleanLoop_mem newFL oldFL oldFL.subplots id,
   by decide⟩

/-- C10: a previously-present id absent from the new layout whose wrapper
slot is unset triggers no destroy call; `clean` is total, so the call
completes without error. -/
theorem mapbox_clean_never_plotted_noop (newFL oldFL : FullLayout)
    (id : String)
    (_hid : id ∈ oldFL.subplots)
    (_hnew : newFL.hasEntry id = false)
    (hw : (oldFL.opts id).subplotWrapper = none) :
    id ∉ clean newFL oldFL := by
  intro hmem
  rcases (cleanLoop_mem newFL oldFL oldFL.subplots id).mp hmem with
    ⟨-, -, hsome⟩
  rw [hw] at hsome
  simp at hsome

theorem mapbox_clean_never_plotted_noop_witness :
    ("mapbox2" ∈ oldABnoB.subplots ∧
      newOnlyA.hasEntry "mapbox2" = false ∧
      (oldABnoB.opts "mapbox2").subplotWrapper = none) ∧
    "mapbox2" ∉ clean newOnlyA oldABnoB :=
  ⟨⟨by decide, by decide, by decide⟩,
   mapbox_clean_never_plotted_noop newOnlyA oldABnoB "mapbox2"
     (by decide) (by decide) (by decide)⟩

/-- C9 as frozen is false: `updateFx` does not skip an id without a
wrapper — the source dereferences `fullLayout[id]._subplot.updateFx`
without a guard, so on `gdBasic` (one current subplot, wrapper slot unset)
the operation raises a TypeError instead of completing without error. -/
theorem mapbox_updateFx_skip_cex :
    gdBasic.fullLayout.subplots = ["mapbox"] ∧
    (gdBasic.fullLayout.opts "mapbox").subplotWrapper = none ∧
    updateFx gdBasic = Except.error () :=
  ⟨rfl, rfl, rfl⟩

/-- C9 (amended): `updateFx` reapplies event bindings exactly to the
current subplot ids and creates or mutates no wrapper (it does not touch
the graph state at all), but it requires every current id to have a live
wrapper: under that hypothesis it completes without error; an id without a
wrapper makes the whole call throw a TypeError instead of being skipped. -/
theorem mapbox_updateFx_rebinds_live (gd : GraphDiv)
    (h : ∀ id ∈ gd.fullLayout.subplots,
      ((gd.fullLayout.opts id).subplotWrapper).isSome) :
    updateFx gd = Except.ok gd.fullLayout.subplots :=
  updateFxLoop_ok gd.fullLayout gd.fullLayout.subplots h

theorem mapbox_updateFx_rebinds_live_witness :
    (∀ id ∈ gdLive.fullLayout.subplots,
      ((gdLive.fullLayout.opts id).subplotWrapper).isSome) ∧
    updateFx gdLive = Except.ok ["mapbox"] :=
  ⟨by decide, mapbox_updateFx_rebinds_live gdLive (by decide)⟩

/-- The plot size and subplot domain of the concrete export scenario:
an 800 × 600 canvas with zero margins and domain x:[0.2, 0.8],
y:[0.1, 0.9]. -/
def sizeW8 : PlotSize := { l := 0, t := 0, w := 800, h := 600 }

def domW8 : Domain := { x0 := 1/5, x1 := 4/5, y0 := 1/10, y1 := 9/10 }

/-- One live subplot with the export-scenario domain. -/
def gdExport : GraphDiv :=
  { fullLayout :=
      { subplots := ["mapbox"],
        hasEntry := fun j => j == "mapbox",
        opts := fun _ =>
          { style := MapStyle.str "basic", accesstoken := "tokA",
            center := centerX, zoom := 1, bearing := 0, pitch := 0,
            domain := domW8, subplotWrapper := some wrapperX } },
    context := { mapboxAccessToken := none },
    promises := 0, nextUid := 1 }

/-- C8: `toSVG` embeds each subplot's snapshot at
`x = l + w·x₀`, `y = t + h·(1 − y₁)` with size `w·(x₁ − x₀)` by
`h·(y₁ − y₀)` (the `imageRect` formula applied to the subplot's domain),
then destroys the subplot's wrapper, so a subsequent successful `plot` call
constructs a new wrapper for every exported id. -/
theorem mapbox_toSVG_export (size : PlotSize) (gd : GraphDiv)
    (hnd : gd.fullLayout.subplots.Nodup)
    (hw : ∀ id ∈ gd.fullLayout.subplots,
      ((gd.fullLayout.opts id).subplotWrapper).isSome) :
    ∃ gd2, toSVG size gd = some (gd2,
        gd.fullLayout.subplots.map
          (fun id => imageRect size ((gd.fullLayout.opts id).domain))) ∧
      gd2.fullLayout.subplots = gd.fullLayout.subplots ∧
      (∀ id ∈ gd.fullLayout.subplots,
        (gd2.fullLayout.opts id).subplotWrapper = none) ∧
      (∀ (cs : Constants) (mgl : MapboxGL),
        mgl.version = cs.requiredVersion →
        (findAccessToken cs gd2 gd2.fullLayout.subplots).1 ≠
          Except.error () →
        ∀ id ∈ gd2.fullLayout.subplots, id ∈ (plot cs mgl gd2).created) := by
  rcases toSVGLoop_spec size gd.fullLayout.subplots gd.fullLayout hnd hw
    with ⟨fl2, hloop, hsub, hin, -⟩
  refine ⟨{ gd with fullLayout := fl2 }, ?_, hsub, ?_, ?_⟩
  · simp [toSVG, hloop]
  · intro id hid
    rw [show ({ gd with fullLayout := fl2 } : GraphDiv).fullLayout = fl2
        from rfl, hin id hid]
  · intro cs mgl hv htok id hid
    rcases hfa : findAccessToken cs { gd with fullLayout := fl2 }
        ({ gd with fullLayout := fl2 } : GraphDiv).fullLayout.subplots
      with ⟨res, logs⟩
    cases res with
    | error e =>
        cases e
        rw [hfa] at htok
        exact absurd rfl htok
    | ok tok =>
        have hwnone : ((({ gd with fullLayout := fl2 } :
            GraphDiv).fullLayout.opts id)).subplotWrapper = none := by
          have hid2 : id ∈ gd.fullLayout.subplots := by
            rw [← hsub]
            exact hid
          rw [show ({ gd with fullLayout := fl2 } :
            GraphDiv).fullLayout = fl2 from rfl, hin id hid2]
        rcases hpl : plotLoop { gd with fullLayout := fl2 }
            ({ gd with fullLayout := fl2 } : GraphDiv).fullLayout.subplots
          with ⟨gd3, created⟩
        have hmem := plotLoop_created_mem { gd with fullLayout := fl2 }
          ({ gd with fullLayout := fl2 } : GraphDiv).fullLayout.subplots
          id hid hwnone
        rw [hpl] at hmem
        simp [plot, hv, hfa, hpl]
        exact hmem

theorem mapbox_toSVG_export_witness :
    gdExport.fullLayout.subplots.Nodup ∧
    (∀ id ∈ gdExport.fullLayout.subplots,
      ((gdExport.fullLayout.opts id).subplotWrapper).isSome) ∧
    imageRect sizeW8 domW8 =
      { x := 160, y := 60, width := 480, height := 480 } ∧
    (∃ gd2, toSVG sizeW8 gdExport = some (gd2,
        gdExport.fullLayout.subplots.map
          (fun id => imageRect sizeW8 ((gdExport.fullLayout.opts id).domain))) ∧
      gd2.fullLayout.subplots = gdExport.fullLayout.subplots ∧
      (∀ id ∈ gdExport.fullLayout.subplots,
        (gd2.fullLayout.opts id).subplotWrapper = none) ∧
      (∀ (cs : Constants) (mgl : MapboxGL),
        mgl.version = cs.requiredVersion →
        (findAccessToken cs gd2 gd2.fullLayout.subplots).1 ≠
          Except.error () →
        ∀ id ∈ gd2.fullLayout.subplots, id ∈ (plot cs mgl gd2).created)) :=
  ⟨by decide, by decide,
   by simp only [imageRect, sizeW8, domW8]; norm_num,
   mapbox_toSVG_export sizeW8 gdExport (by decide) (by decide)⟩

end PlotlyMapbox
